import Mathlib

/-!
Shallow embedding of the mxnet resource manager (`src/resource.cc`).

The embedding models the CPU (no-CUDA) build: `MXNET_USE_CUDA` and
`MSHADOW_USE_CUDA` are 0, so the GPU pools do not exist and every
accelerator-side request hits the fatal path.  Machine integers are
modelled as `Nat` with explicit `% 2 ^ w` where the width matters
(`size_t` is 64-bit, `uint32_t` is 32-bit).  `LOG(FATAL)` / a failed
`CHECK_EQ` terminate the process; they are modelled as a `fatal`
outcome that carries the diagnostic message and never yields a value.
Engine variables (`Engine::NewVariable`) and native pointers are
modelled by identity: distinct allocations receive distinct `Nat` ids.
-/

namespace MxnetResource

/-- `cpu::kDevMask` from mshadow (`1 << 0`). -/
def cpu.kDevMask : Nat := 1

/-- `gpu::kDevMask` from mshadow (`1 << 1`). -/
def gpu.kDevMask : Nat := 2

/-- Device context: device class (by its mask) plus device index. -/
structure Context where
  dev_mask : Nat
  dev_id : Nat
deriving DecidableEq

/-- `Context::CPU()`: the host device, index 0. -/
def Context.CPU : Context := { dev_mask := cpu.kDevMask, dev_id := 0 }

/-- Resource request: the enum `ResourceRequest::Type` carried as a value
(`kRandom = 0`, `kTempSpace = 1`; the `switch` treats any other value as
unknown). -/
structure ResourceRequest where
  type : Nat
deriving DecidableEq

/-- `ResourceRequest::kRandom`. -/
def ResourceRequest.kRandom : Nat := 0

/-- `ResourceRequest::kTempSpace`. -/
def ResourceRequest.kTempSpace : Nat := 1

/-- Modelled from the spec: the `Resource` handle (declared in
`include/mxnet/resource.h`, which is not part of the listing).  Per the
spec it carries the request kind, an opaque pointer to the pooled native
object (`none` when no native object is attached, as in a
default-constructed handle), the engine dependency token (`none` before
one is issued), and the slot index `id` (meaningful for scratch space). -/
structure Resource where
  req : ResourceRequest := { type := 0 }
  id : Int := 0
  var : Option Nat := none
  ptr_ : Option Nat := none
deriving DecidableEq

instance : Inhabited Resource := ⟨{}⟩

/-- `kRandMagic`: magic number used to derive per-device seeds. -/
def kRandMagic : Nat := 127

/-- Seed derivation `ctx.dev_id + global_seed * kRandMagic` in `uint32_t`
arithmetic, as computed in `ResourceRandom`'s constructor and `Seed`. -/
def derivedSeed (dev_id global_seed : Nat) : Nat :=
  (dev_id + global_seed * kRandMagic) % 2 ^ 32

/-- `ResourceRandom<cpu>`: one PRNG per device.  `prnd_seed` is the
observable generator state (the seed last installed into the PRNG, which
is all the embedding tracks of `mshadow::Random`), `prnd` the pointer
identity of the allocated generator. -/
structure ResourceRandom where
  ctx : Context
  prnd_seed : Nat
  prnd : Nat
  resource : Resource
deriving DecidableEq

/-- The `ResourceRandom` constructor: allocate an engine variable
(`varId`), allocate the PRNG (`pid`) seeded with
`ctx.dev_id + global_seed * kRandMagic`, and fill the handle. -/
def mkResourceRandom (ctx : Context) (global_seed : Nat) (varId pid : Nat) :
    ResourceRandom :=
  { ctx := ctx
    prnd_seed := derivedSeed ctx.dev_id global_seed
    prnd := pid
    resource :=
      { req := { type := ResourceRequest.kRandom }
        id := 0
        var := some varId
        ptr_ := some pid } }

/-- `ResourceRandom::Seed`: recompute the derived seed and install it into
the PRNG (the `PushSync` callback's observable effect). -/
def ResourceRandom.Seed (r : ResourceRandom) (global_seed : Nat) :
    ResourceRandom :=
  { r with prnd_seed := derivedSeed r.ctx.dev_id global_seed }

/-- `ResourceTempSpace<cpu>`: the scratch-space pool.  `resource` is the
per-slot handle vector (same length as `space`) and `curr_ptr` the
round-robin cursor (`std::atomic<size_t>`). -/
structure ResourceTempSpace where
  ctx : Context
  resource : List Resource
  curr_ptr : Nat
deriving DecidableEq

/-- The handle stored at slot `i` by the `ResourceTempSpace` constructor:
engine variable `varBase + i`, native buffer pointer `pidBase + i`,
`id = i`, kind `kTempSpace`. -/
def tempSpaceSlot (varBase pidBase i : Nat) : Resource :=
  { req := { type := ResourceRequest.kTempSpace }
    id := (i : Int)
    var := some (varBase + i)
    ptr_ := some (pidBase + i) }

/-- The `ResourceTempSpace` constructor: `ncopy` slots, each with a fresh
buffer, a fresh engine variable and its own index as `id`; cursor 0. -/
def mkResourceTempSpace (ctx : Context) (ncopy : Nat) (varBase pidBase : Nat) :
    ResourceTempSpace :=
  { ctx := ctx
    resource := (List.range ncopy).map (tempSpaceSlot varBase pidBase)
    curr_ptr := 0 }

/-- `std::numeric_limits<size_t>::max() / 2`, the overflow guard threshold
in `GetNext`. -/
def kMaxDigit : Nat := (2 ^ 64 - 1) / 2

/-- `ResourceTempSpace::GetNext`: `ptr = ++curr_ptr` (a 64-bit increment);
if `ptr > kMaxDigit`, store `(ptr + 1) % space.size()` back into the
cursor; return `resource[ptr % space.size()]`. -/
def ResourceTempSpace.GetNext (s : ResourceTempSpace) :
    Resource × ResourceTempSpace :=
  let ptr := (s.curr_ptr + 1) % 2 ^ 64
  let stored := if kMaxDigit < ptr
    then ((ptr + 1) % 2 ^ 64) % s.resource.length
    else ptr
  (s.resource.getD (ptr % s.resource.length) default,
    { s with curr_ptr := stored })

/-- `ResourceManagerImpl`: the CPU-build manager state.  The two copy
counts come from the environment (defaults 16 and 4); `global_seed_` is a
`uint32_t`; the two CPU pools are owned directly. -/
structure ResourceManagerImpl where
  cpu_temp_space_copy_ : Nat
  gpu_temp_space_copy_ : Nat
  global_seed_ : Nat
  cpu_rand_ : ResourceRandom
  cpu_space_ : ResourceTempSpace
deriving DecidableEq

/-- The `ResourceManagerImpl` constructor: read the copy counts, seed 0,
build the CPU random pool (engine variable 0, PRNG pointer 0) then the CPU
scratch pool (engine variables and buffer pointers from 1 up). -/
def ResourceManagerImpl.init (cpuCopy gpuCopy : Nat) : ResourceManagerImpl :=
  { cpu_temp_space_copy_ := cpuCopy
    gpu_temp_space_copy_ := gpuCopy
    global_seed_ := 0
    cpu_rand_ := mkResourceRandom Context.CPU 0 0 0
    cpu_space_ := mkResourceTempSpace Context.CPU cpuCopy 1 1 }

/-- Outcome of `Request`: a returned handle, a fatal `LOG(FATAL)` /
failed `CHECK_EQ` with its diagnostic, or the trailing
`Resource ret; return ret;` at the end of the function body. -/
inductive ReqOutcome where
  | ok (r : Resource)
  | fatal (msg : String)
  | defaultRet
deriving DecidableEq

/-- Whether a `Request` outcome is the fatal (process-terminating) one. -/
def ReqOutcome.isFatal : ReqOutcome → Bool
  | .fatal _ => true
  | _ => false

/-- `ResourceManagerImpl::Request` in the no-CUDA build.  The CPU branch
switches on `req.type` (`kRandom` → the random pool's handle, `kTempSpace`
→ `GetNext()` on the scratch pool, default → `LOG(FATAL)`); otherwise
`CHECK_EQ(ctx.dev_mask(), gpu::kDevMask)` and then the
`MXNET_GPU_NOT_ENABLED_ERROR` fatal path.  Every branch of the body ends
in a return or a fatal exit; only if none did would control reach the
trailing default-constructed return, modelled by the `none` case. -/
def ResourceManagerImpl.Request (st : ResourceManagerImpl) (ctx : Context)
    (req : ResourceRequest) : ReqOutcome × ResourceManagerImpl :=
  let body : Option (ReqOutcome × ResourceManagerImpl) :=
    if ctx.dev_mask = cpu.kDevMask then
      if req.type = ResourceRequest.kRandom then
        some (ReqOutcome.ok st.cpu_rand_.resource, st)
      else if req.type = ResourceRequest.kTempSpace then
        let out := st.cpu_space_.GetNext
        some (ReqOutcome.ok out.1, { st with cpu_space_ := out.2 })
      else
        some (ReqOutcome.fatal "Unknown supported type", st)
    else
      if ctx.dev_mask = gpu.kDevMask then
        some (ReqOutcome.fatal "GPU is not enabled", st)
      else
        some (ReqOutcome.fatal "Check failed: ctx.dev_mask() == gpu::kDevMask", st)
  match body with
  | some out => out
  | none => (ReqOutcome.defaultRet, st)

/-- `ResourceManagerImpl::SeedRandom` in the no-CUDA build: truncate the
incoming seed to `uint32_t`, store it as the global seed, and re-seed the
CPU random pool with it synchronously. -/
def ResourceManagerImpl.SeedRandom (st : ResourceManagerImpl) (seed : Nat) :
    ResourceManagerImpl :=
  let g := seed % 2 ^ 32
  { st with
    global_seed_ := g
    cpu_rand_ := st.cpu_rand_.Seed g }

/-- The file-scope singleton state: `instance_ptr` and `rm_shutdown`. -/
structure GlobalState where
  instance_ptr : Option ResourceManagerImpl
  rm_shutdown : Bool
deriving DecidableEq

/-- The initial state of the translation unit: no instance, not shut down. -/
def initialGlobal : GlobalState :=
  { instance_ptr := none, rm_shutdown := false }

/-- Outcome of `ResourceManager::Get`: the returned instance, or the
`LOG(FATAL)` taken when the manager was already shut down. -/
inductive GetOutcome where
  | ok (m : ResourceManagerImpl)
  | fatal (msg : String)
deriving DecidableEq

/-- Whether a `Get` outcome is the fatal (process-terminating) one. -/
def GetOutcome.isFatal : GetOutcome → Bool
  | .fatal _ => true
  | _ => false

namespace ResourceManager

/-- `ResourceManager::Get`: if no instance exists, it is fatal when
`rm_shutdown` is set, otherwise a fresh `ResourceManagerImpl` is created
(with the default copy counts 16 and 4) and installed; the instance is
returned. -/
def Get (g : GlobalState) : GetOutcome × GlobalState :=
  match g.instance_ptr with
  | none =>
      if g.rm_shutdown then
        (GetOutcome.fatal "Resource manager already shutdone", g)
      else
        let inst := ResourceManagerImpl.init 16 4
        (GetOutcome.ok inst, { g with instance_ptr := some inst })
  | some inst => (GetOutcome.ok inst, g)

/-- `ResourceManager::Shutdown`: if an instance exists, delete it and set
`rm_shutdown`; otherwise do nothing and return normally. -/
def Shutdown (g : GlobalState) : GlobalState :=
  match g.instance_ptr with
  | some _ => { instance_ptr := none, rm_shutdown := true }
  | none => g

end ResourceManager

/-- A call to one of the two singleton entry points. -/
inductive MgrCall where
  | get
  | shutdown
deriving DecidableEq

/-- Effect of one singleton call on the file-scope state (a fatal `Get`
terminates the process, so it leaves no observable successor state other
than the unchanged one it was given). -/
def runCall (g : GlobalState) : MgrCall → GlobalState
  | MgrCall.get => (ResourceManager.Get g).2
  | MgrCall.shutdown => ResourceManager.Shutdown g

/-- Effect of a sequence of singleton calls, first call first. -/
def runCalls (cs : List MgrCall) (g : GlobalState) : GlobalState :=
  cs.foldl runCall g

/-- The slot ids handed out by `n` consecutive `GetNext()` calls. -/
def getNextIds : Nat → ResourceTempSpace → List Int
  | 0, _ => []
  | n + 1, s =>
    let out := s.GetNext
    out.1.id :: getNextIds n out.2

/-- The slot ids handed out by `n` consecutive
`Request(ctx, kTempSpace)` calls on the manager, threading its state. -/
def requestTempIds : Nat → ResourceManagerImpl → List Int
  | 0, _ => []
  | n + 1, st =>
    match st.Request Context.CPU { type := ResourceRequest.kTempSpace } with
    | (ReqOutcome.ok r, st') => r.id :: requestTempIds n st'
    | (_, st') => requestTempIds n st'

/-- End to end: obtain the manager through `Get()` from the initial state
and issue `n` sequential host `TempSpace` requests, collecting slot ids. -/
def hostTempIds (n : Nat) : List Int :=
  match ResourceManager.Get initialGlobal with
  | (GetOutcome.ok mgr, _) => requestTempIds n mgr
  | (GetOutcome.fatal _, _) => []

/-- Well-formedness of the manager state, as established by its
constructor: the random pool's handle points at the allocated PRNG, the
scratch pool is non-empty, and every scratch handle points at its
allocated buffer. -/
def WellFormed (st : ResourceManagerImpl) : Prop :=
  st.cpu_rand_.resource.ptr_.isSome = true
    ∧ 1 ≤ st.cpu_space_.resource.length
    ∧ ∀ r ∈ st.cpu_space_.resource, r.ptr_.isSome = true

/-- The overflow-guard threshold fits in 64 bits. -/
theorem kMaxDigit_lt : kMaxDigit < 2 ^ 64 := by norm_num [kMaxDigit]

/-- Round-robin unrolling: starting from cursor `c` with the guard
threshold not yet reached, `k` consecutive `GetNext()` calls on a pool of
`N` constructor-built slots return the slot ids
`(c+1) % N, (c+2) % N, …, (c+k) % N`. -/
theorem getNextIds_range_map (N varB pidB : Nat) (hN : 1 ≤ N) :
    ∀ (k c : Nat), c + k ≤ kMaxDigit →
      getNextIds k { ctx := Context.CPU,
                     resource := (List.range N).map (tempSpaceSlot varB pidB),
                     curr_ptr := c }
        = (List.range k).map (fun j => (((c + j + 1) % N : Nat) : Int)) := by
  intro k
  induction k with
  | zero => intro c hc; simp [getNextIds]
  | succ k ih =>
    intro c hc
    have hlt : c + 1 < 2 ^ 64 := by have := kMaxDigit_lt; omega
    have hmod : (c + 1) % 2 ^ 64 = c + 1 := Nat.mod_eq_of_lt hlt
    have hidx : (c + 1) % N < N := Nat.mod_lt _ (by omega)
    have hlen : ((List.range N).map (tempSpaceSlot varB pidB)).length = N := by
      simp
    simp only [getNextIds, ResourceTempSpace.GetNext, hmod, hlen]
    rw [if_neg (by omega : ¬ kMaxDigit < c + 1)]
    rw [List.getD_eq_getElem _ _ (by simpa [hlen] using hidx)]
    rw [ih (c + 1) (by omega)]
    simp only [List.getElem_map, List.getElem_range, tempSpaceSlot]
    rw [List.range_succ_eq_map]
    simp only [List.map_cons, List.map_map]
    refine List.cons_eq_cons.mpr ⟨by norm_num, ?_⟩
    apply List.map_congr_left
    intro j hj
    have hadd : c + 1 + j + 1 = c + (j + 1) + 1 := by omega
    simp only [Function.comp_apply, Nat.succ_eq_add_one, hadd]

/-- Once the singleton state is shut down with no live instance, no
sequence of `Get` / `Shutdown` calls changes it. -/
theorem runCalls_shutdown_stuck (cs : List MgrCall) :
    runCalls cs { instance_ptr := none, rm_shutdown := true }
      = { instance_ptr := none, rm_shutdown := true } := by
  induction cs with
  | nil => rfl
  | cons c cs ih =>
    have h : runCall { instance_ptr := none, rm_shutdown := true } c
        = { instance_ptr := none, rm_shutdown := true } := by
      cases c <;> rfl
    simp only [runCalls, List.foldl_cons, h] at ih ⊢
    exact ih

/-- Claim C1: for a scratch pool of `N ≥ 1` buffers, with the cursor below
the overflow threshold, the i-th sequential `GetNext()` returns the slot
with index `i % N`, so the ids cycle `1, 2, …, N-1, 0, 1, …`; concretely,
for `N = 4`, 6 calls return `[1, 2, 3, 0, 1, 2]`, and `Get()` followed by
20 sequential host `TempSpace` requests on the 16-copy host pool returns
slot indices `1, 2, …, 15, 0, 1, 2, 3, 4`. -/
theorem C1_round_robin :
    (∀ (N k varB pidB : Nat), 1 ≤ N → k ≤ kMaxDigit →
      getNextIds k (mkResourceTempSpace Context.CPU N varB pidB)
        = (List.range k).map (fun j => (((j + 1) % N : Nat) : Int)))
    ∧ getNextIds 6 (mkResourceTempSpace Context.CPU 4 0 0) = [1, 2, 3, 0, 1, 2]
    ∧ hostTempIds 20 = [1, 2, 3, 4, 5, 6, 7, 8, 9, 10, 11, 12, 13, 14, 15, 0, 1, 2, 3, 4] := by
  refine ⟨?_, by decide, by decide⟩
  intro N k varB pidB hN hk
  have h := getNextIds_range_map N varB pidB hN k 0 (by omega)
  simpa [mkResourceTempSpace] using h

/-- Witness for C1 at `N = 4`, `k = 6`. -/
theorem C1_round_robin_witness :
    1 ≤ 4 ∧ 6 ≤ kMaxDigit ∧
      getNextIds 6 (mkResourceTempSpace Context.CPU 4 0 0)
        = (List.range 6).map (fun j => (((j + 1) % 4 : Nat) : Int)) :=
  ⟨by decide, by decide, C1_round_robin.1 4 6 0 0 (by decide) (by decide)⟩

/-- Claim C2, counterexample: in the call sequence `Shutdown(); Get()`
from the initial state, `Shutdown()` precedes the `Get()`, yet the
`Get()` is not fatal — it creates and returns an instance, because a
`Shutdown()` that found no instance never set `rm_shutdown`. -/
theorem C2_counterexample :
    ((ResourceManager.Get (ResourceManager.Shutdown initialGlobal)).1).isFatal = false
    ∧ (ResourceManager.Get (ResourceManager.Shutdown initialGlobal)).1
        = GetOutcome.ok (ResourceManagerImpl.init 16 4) := ⟨rfl, rfl⟩

/-- Claim C2 as amended: after a `Shutdown()` invoked while an instance
exists (so at least one `Get()` preceded it), every later `Get()` — after
any further sequence of `Get` / `Shutdown` calls — is fatal rather than
returning an instance or recreating the manager. -/
theorem C2_get_after_effective_shutdown (g : GlobalState) (m : ResourceManagerImpl)
    (cs : List MgrCall) (h : g.instance_ptr = some m) :
    ((ResourceManager.Get (runCalls cs (ResourceManager.Shutdown g))).1).isFatal = true := by
  have hs : ResourceManager.Shutdown g = { instance_ptr := none, rm_shutdown := true } := by
    unfold ResourceManager.Shutdown
    rw [h]
  rw [hs, runCalls_shutdown_stuck]
  rfl

/-- Witness for C2: a live instance, an intervening `Get` attempt, then
the final `Get` is fatal. -/
theorem C2_witness :
    ({ instance_ptr := some (ResourceManagerImpl.init 16 4), rm_shutdown := false }
        : GlobalState).instance_ptr = some (ResourceManagerImpl.init 16 4)
    ∧ ((ResourceManager.Get (runCalls [MgrCall.get]
          (ResourceManager.Shutdown
            { instance_ptr := some (ResourceManagerImpl.init 16 4),
              rm_shutdown := false }))).1).isFatal = true :=
  ⟨rfl, C2_get_after_effective_shutdown _ (ResourceManagerImpl.init 16 4) [MgrCall.get] rfl⟩

/-- Claim C3, counterexample: after `Get(); Shutdown()`, a second
`Shutdown()` — made while no instance exists — returns normally with the
state unchanged (a no-op), instead of terminating the process. -/
theorem C3_counterexample :
    ResourceManager.Shutdown (runCalls [MgrCall.get, MgrCall.shutdown] initialGlobal)
      = runCalls [MgrCall.get, MgrCall.shutdown] initialGlobal := rfl

/-- Claim C3 as amended: calling `Shutdown()` when no instance exists —
in particular a second `Shutdown()` without an intervening `Get()` — is a
no-op that returns normally, leaving the singleton state unchanged. -/
theorem C3_second_shutdown_noop (g : GlobalState) (h : g.instance_ptr = none) :
    ResourceManager.Shutdown g = g := by
  unfold ResourceManager.Shutdown
  rw [h]

/-- Witness for C3 at the post-shutdown state. -/
theorem C3_witness :
    ({ instance_ptr := none, rm_shutdown := true } : GlobalState).instance_ptr = none
    ∧ ResourceManager.Shutdown { instance_ptr := none, rm_shutdown := true }
        = { instance_ptr := none, rm_shutdown := true } :=
  ⟨rfl, C3_second_shutdown_noop _ rfl⟩

/-- Claim C4: every `Request(ctx, req)` with a CPU context and a request
kind outside `{kRandom, kTempSpace}`, and every `Request` with a non-CPU
context in the no-CUDA build, takes a fatal path (so it never returns an
error value or a `Resource` handle to the caller). -/
theorem C4_fatal_paths (st : ResourceManagerImpl) (ctx : Context) (req : ResourceRequest)
    (h : (ctx.dev_mask = cpu.kDevMask ∧ req.type ≠ ResourceRequest.kRandom
            ∧ req.type ≠ ResourceRequest.kTempSpace)
         ∨ ctx.dev_mask ≠ cpu.kDevMask) :
    ((st.Request ctx req).1).isFatal = true := by
  unfold ResourceManagerImpl.Request
  rcases h with ⟨h1, h2, h3⟩ | h1
  · simp [h1, h2, h3, ReqOutcome.isFatal]
  · simp only [cpu.kDevMask, gpu.kDevMask] at h1 ⊢
    by_cases hg : ctx.dev_mask = 2 <;> simp [h1, hg, ReqOutcome.isFatal]

/-- Witness for C4: a GPU-context request in the no-CUDA build is fatal. -/
theorem C4_witness :
    ((({ dev_mask := gpu.kDevMask, dev_id := 0 } : Context).dev_mask = cpu.kDevMask
        ∧ ({ type := 0 } : ResourceRequest).type ≠ ResourceRequest.kRandom
        ∧ ({ type := 0 } : ResourceRequest).type ≠ ResourceRequest.kTempSpace)
      ∨ ({ dev_mask := gpu.kDevMask, dev_id := 0 } : Context).dev_mask ≠ cpu.kDevMask)
    ∧ (((ResourceManagerImpl.init 16 4).Request { dev_mask := gpu.kDevMask, dev_id := 0 }
          { type := 0 }).1).isFatal = true :=
  ⟨by decide, C4_fatal_paths (ResourceManagerImpl.init 16 4) _ _ (by decide)⟩

/-- Claim C5: for device indices `d1 ≠ d2` (both within `uint32_t` range,
as `dev_id` is a 32-bit integer) and any fixed global seed `g`, the
derived seeds `d1 + g * kRandMagic` and `d2 + g * kRandMagic`, computed
in unsigned 32-bit arithmetic with `kRandMagic = 127`, are distinct; and
the seed installed by `Seed` is a function of the device index and the
global seed alone. -/
theorem C5_distinct_seeds :
    (∀ d1 d2 g : Nat, d1 < 2 ^ 32 → d2 < 2 ^ 32 → d1 ≠ d2 →
        derivedSeed d1 g ≠ derivedSeed d2 g)
    ∧ (∀ (r1 r2 : ResourceRandom) (g : Nat), r1.ctx.dev_id = r2.ctx.dev_id →
        (r1.Seed g).prnd_seed = (r2.Seed g).prnd_seed) := by
  constructor
  · intro d1 d2 g h1 h2 hne heq
    unfold derivedSeed kRandMagic at heq
    have h32 : (2 : Nat) ^ 32 = 4294967296 := by norm_num
    rw [h32] at heq h1 h2
    omega
  · intro r1 r2 g h
    simp [ResourceRandom.Seed, derivedSeed, h]

/-- Witness for C5 at `d1 = 0`, `d2 = 1`, `g = 5`. -/
theorem C5_witness :
    (0 : Nat) < 2 ^ 32 ∧ (1 : Nat) < 2 ^ 32 ∧ (0 : Nat) ≠ 1
    ∧ derivedSeed 0 5 ≠ derivedSeed 1 5
    ∧ (mkResourceRandom Context.CPU 0 0 0).ctx.dev_id
        = (mkResourceRandom Context.CPU 7 3 4).ctx.dev_id
    ∧ ((mkResourceRandom Context.CPU 0 0 0).Seed 5).prnd_seed
        = ((mkResourceRandom Context.CPU 7 3 4).Seed 5).prnd_seed :=
  ⟨by decide, by decide, by decide,
    C5_distinct_seeds.1 0 1 5 (by decide) (by decide) (by decide),
    rfl, C5_distinct_seeds.2 _ _ 5 rfl⟩

/-- Claim C6: `SeedRandom` is idempotent — for every seed and every
manager state, seeding twice with the same value leaves the global seed
and the host generator (and the whole manager state) exactly as seeding
once does. -/
theorem C6_seedrandom_idempotent (st : ResourceManagerImpl) (s : Nat) :
    (st.SeedRandom s).SeedRandom s = st.SeedRandom s := rfl

/-- Claim C7: for a pool of `N ≥ 1` slots whose stored cursor respects
the bound `max kMaxDigit N`, `GetNext()` returns the slot at index
`ptr % N` (a valid index below `N`) where `ptr` is the incremented
cursor; the new stored cursor again respects the bound, being reset to
`(ptr + 1) % N` exactly when `ptr` exceeds the half-range threshold and
left at `ptr` otherwise. -/
theorem C7_cursor_invariant (s : ResourceTempSpace)
    (hN : 1 ≤ s.resource.length)
    (hc : s.curr_ptr ≤ max kMaxDigit s.resource.length) :
    ((s.GetNext).1
        = s.resource.getD (((s.curr_ptr + 1) % 2 ^ 64) % s.resource.length) default
      ∧ ((s.curr_ptr + 1) % 2 ^ 64) % s.resource.length < s.resource.length)
    ∧ (s.GetNext).2.curr_ptr ≤ max kMaxDigit s.resource.length
    ∧ (kMaxDigit < (s.curr_ptr + 1) % 2 ^ 64 →
        (s.GetNext).2.curr_ptr
          = (((s.curr_ptr + 1) % 2 ^ 64 + 1) % 2 ^ 64) % s.resource.length)
    ∧ ((s.curr_ptr + 1) % 2 ^ 64 ≤ kMaxDigit →
        (s.GetNext).2.curr_ptr = (s.curr_ptr + 1) % 2 ^ 64) := by
  have hcur : (s.GetNext).2.curr_ptr
      = if kMaxDigit < (s.curr_ptr + 1) % 2 ^ 64
        then (((s.curr_ptr + 1) % 2 ^ 64 + 1) % 2 ^ 64) % s.resource.length
        else (s.curr_ptr + 1) % 2 ^ 64 := rfl
  have hidx : ((s.curr_ptr + 1) % 2 ^ 64) % s.resource.length < s.resource.length :=
    Nat.mod_lt _ (by omega)
  refine ⟨⟨rfl, hidx⟩, ?_, ?_, ?_⟩
  · rw [hcur]
    by_cases hp : kMaxDigit < (s.curr_ptr + 1) % 2 ^ 64
    · rw [if_pos hp]
      have hlt : (((s.curr_ptr + 1) % 2 ^ 64 + 1) % 2 ^ 64) % s.resource.length
          < s.resource.length := Nat.mod_lt _ (by omega)
      exact le_trans (Nat.le_of_lt hlt) (le_max_right _ _)
    · rw [if_neg hp]
      exact le_trans (Nat.le_of_not_lt hp) (le_max_left _ _)
  · intro hp
    rw [hcur, if_pos hp]
  · intro hp
    rw [hcur, if_neg (by omega)]

/-- Witness for C7 on the fresh 4-slot pool. -/
theorem C7_witness :
    1 ≤ (mkResourceTempSpace Context.CPU 4 0 0).resource.length
    ∧ (mkResourceTempSpace Context.CPU 4 0 0).curr_ptr
        ≤ max kMaxDigit (mkResourceTempSpace Context.CPU 4 0 0).resource.length
    ∧ ((((mkResourceTempSpace Context.CPU 4 0 0).GetNext).1
          = (mkResourceTempSpace Context.CPU 4 0 0).resource.getD
              ((((mkResourceTempSpace Context.CPU 4 0 0).curr_ptr + 1) % 2 ^ 64)
                % (mkResourceTempSpace Context.CPU 4 0 0).resource.length) default
        ∧ (((mkResourceTempSpace Context.CPU 4 0 0).curr_ptr + 1) % 2 ^ 64)
            % (mkResourceTempSpace Context.CPU 4 0 0).resource.length
            < (mkResourceTempSpace Context.CPU 4 0 0).resource.length)
      ∧ ((mkResourceTempSpace Context.CPU 4 0 0).GetNext).2.curr_ptr
          ≤ max kMaxDigit (mkResourceTempSpace Context.CPU 4 0 0).resource.length
      ∧ (kMaxDigit < ((mkResourceTempSpace Context.CPU 4 0 0).curr_ptr + 1) % 2 ^ 64 →
          ((mkResourceTempSpace Context.CPU 4 0 0).GetNext).2.curr_ptr
            = ((((mkResourceTempSpace Context.CPU 4 0 0).curr_ptr + 1) % 2 ^ 64 + 1) % 2 ^ 64)
                % (mkResourceTempSpace Context.CPU 4 0 0).resource.length)
      ∧ (((mkResourceTempSpace Context.CPU 4 0 0).curr_ptr + 1) % 2 ^ 64 ≤ kMaxDigit →
          ((mkResourceTempSpace Context.CPU 4 0 0).GetNext).2.curr_ptr
            = ((mkResourceTempSpace Context.CPU 4 0 0).curr_ptr + 1) % 2 ^ 64)) :=
  ⟨by decide, by decide,
    C7_cursor_invariant (mkResourceTempSpace Context.CPU 4 0 0) (by decide) (by decide)⟩

/-- Claim C9: the trailing default-constructed return of `Request` is
unreachable — on a well-formed manager every CPU request with kind
`kRandom` or `kTempSpace` returns a handle from the corresponding pool
(one carrying a native pointer, so not a default-constructed handle), and
every other combination takes a fatal path before the final return. -/
theorem C9_default_return_unreachable (st : ResourceManagerImpl) (ctx : Context)
    (req : ResourceRequest) (hwf : WellFormed st) :
    (st.Request ctx req).1 ≠ ReqOutcome.defaultRet
    ∧ (ctx.dev_mask = cpu.kDevMask →
        (req.type = ResourceRequest.kRandom ∨ req.type = ResourceRequest.kTempSpace) →
        ∃ r, (st.Request ctx req).1 = ReqOutcome.ok r ∧ r.ptr_.isSome = true)
    ∧ (¬ (ctx.dev_mask = cpu.kDevMask
            ∧ (req.type = ResourceRequest.kRandom ∨ req.type = ResourceRequest.kTempSpace)) →
        ((st.Request ctx req).1).isFatal = true) := by
  obtain ⟨hr, hlen, hall⟩ := hwf
  have hmem : (st.cpu_space_.GetNext).1 ∈ st.cpu_space_.resource := by
    have hidx : ((st.cpu_space_.curr_ptr + 1) % 2 ^ 64) % st.cpu_space_.resource.length
        < st.cpu_space_.resource.length := Nat.mod_lt _ (by omega)
    have hfst : (st.cpu_space_.GetNext).1
        = st.cpu_space_.resource.getD
            (((st.cpu_space_.curr_ptr + 1) % 2 ^ 64) % st.cpu_space_.resource.length)
            default := rfl
    rw [hfst, List.getD_eq_getElem _ _ hidx]
    exact List.getElem_mem _
  by_cases hcpu : ctx.dev_mask = cpu.kDevMask
  · by_cases h0 : req.type = ResourceRequest.kRandom
    · have hout : st.Request ctx req = (ReqOutcome.ok st.cpu_rand_.resource, st) := by
        simp [ResourceManagerImpl.Request, hcpu, h0]
      refine ⟨by rw [hout]; simp, fun _ _ => ⟨st.cpu_rand_.resource, by rw [hout], hr⟩, ?_⟩
      intro hcontra
      exact absurd ⟨hcpu, Or.inl h0⟩ hcontra
    · by_cases h1 : req.type = ResourceRequest.kTempSpace
      · have hout : (st.Request ctx req).1 = ReqOutcome.ok (st.cpu_space_.GetNext).1 := by
          simp [ResourceManagerImpl.Request, hcpu, h0, h1,
            ResourceRequest.kRandom, ResourceRequest.kTempSpace]
        refine ⟨by rw [hout]; simp, fun _ _ => ⟨(st.cpu_space_.GetNext).1, hout, hall _ hmem⟩, ?_⟩
        intro hcontra
        exact absurd ⟨hcpu, Or.inr h1⟩ hcontra
      · have hout : (st.Request ctx req).1 = ReqOutcome.fatal "Unknown supported type" := by
          simp [ResourceManagerImpl.Request, hcpu, h0, h1]
        exact ⟨by rw [hout]; simp, fun _ hk => absurd hk (by simp [h0, h1]),
          fun _ => by rw [hout]; rfl⟩
  · have hout : ((st.Request ctx req).1).isFatal = true := by
      unfold ResourceManagerImpl.Request
      simp only [cpu.kDevMask, gpu.kDevMask] at hcpu ⊢
      by_cases hg : ctx.dev_mask = 2 <;> simp [hcpu, hg, ReqOutcome.isFatal]
    refine ⟨?_, fun hc => absurd hc hcpu, fun _ => hout⟩
    intro hcontra
    cases hd : (st.Request ctx req).1 with
    | ok r => rw [hd] at hcontra; exact absurd hcontra (by simp)
    | fatal m => rw [hd] at hcontra; exact absurd hcontra (by simp)
    | defaultRet => rw [hd] at hout; simp [ReqOutcome.isFatal] at hout

/-- Witness for C9 on the freshly constructed manager. -/
theorem C9_witness :
    WellFormed (ResourceManagerImpl.init 16 4)
    ∧ ((ResourceManagerImpl.init 16 4).Request Context.CPU
          { type := ResourceRequest.kTempSpace }).1 ≠ ReqOutcome.defaultRet :=
  ⟨by unfold WellFormed; decide,
    (C9_default_return_unreachable (ResourceManagerImpl.init 16 4) Context.CPU
      { type := ResourceRequest.kTempSpace } (by unfold WellFormed; decide)).1⟩

/-- Claim C10: a CPU `kRandom` request returns the identical stored pool
handle (same dependency token, same generator pointer) on every call and
leaves the manager state — global seed, scratch cursor, and every other
field — unchanged; in particular a repeated call returns the same
outcome. -/
theorem C10_random_request_pure (st : ResourceManagerImpl) (ctx : Context)
    (h : ctx.dev_mask = cpu.kDevMask) :
    (st.Request ctx { type := ResourceRequest.kRandom }).1
        = ReqOutcome.ok st.cpu_rand_.resource
    ∧ (st.Request ctx { type := ResourceRequest.kRandom }).2 = st
    ∧ (((st.Request ctx { type := ResourceRequest.kRandom }).2.Request ctx
          { type := ResourceRequest.kRandom }).1
        = (st.Request ctx { type := ResourceRequest.kRandom }).1) := by
  have hreq : st.Request ctx { type := ResourceRequest.kRandom }
      = (ReqOutcome.ok st.cpu_rand_.resource, st) := by
    simp [ResourceManagerImpl.Request, h]
  refine ⟨by rw [hreq], by rw [hreq], ?_⟩
  rw [hreq]
  rw [hreq]

/-- Witness for C10 on the freshly constructed manager and host context. -/
theorem C10_witness :
    Context.CPU.dev_mask = cpu.kDevMask
    ∧ ((ResourceManagerImpl.init 16 4).Request Context.CPU
          { type := ResourceRequest.kRandom }).2 = ResourceManagerImpl.init 16 4 :=
  ⟨rfl, (C10_random_request_pure (ResourceManagerImpl.init 16 4) Context.CPU rfl).2.1⟩

end MxnetResource
